import Mathlib

/-!
Shallow embedding of the face-tracking servo system:
`pc_vision/movement_detector.py` (MovementDetector.compute) and
`esp8266/main.py` (Servo, Scanner, on_message), with the numeric
constants of `esp8266/config.py`.

Python floats are modelled as exact rationals; `int(x)` truncation
toward zero is `pyInt`; `round(x, n)` is round-half-to-even `pyRound`.
`pc_vision/config.py` is not in the sources, so the classifier's
`DEAD_ZONE_RATIO`, `HYSTERESIS_RATIO` and `MIN_PUBLISH_INTERVAL` stay
parameters `dz`, `hy`, `ivl` of the embedded functions (they are the
constructor/default parameters of `MovementDetector`).
-/

set_option autoImplicit false

namespace FaceTrack

/-- Python `int(x)`: truncation toward zero. -/
def pyInt (q : ℚ) : ℤ := if 0 ≤ q then ⌊q⌋ else ⌈q⌉

/-- Round an exact rational half-to-even to an integer (Python `round` tie rule). -/
def roundHE (q : ℚ) : ℤ :=
  if q - ⌊q⌋ < 1/2 then ⌊q⌋
  else if 1/2 < q - ⌊q⌋ then ⌊q⌋ + 1
  else if Even ⌊q⌋ then ⌊q⌋ else ⌊q⌋ + 1

/-- Python `round(q, n)`. -/
def pyRound (n : ℕ) (q : ℚ) : ℚ := (roundHE (q * 10 ^ n) : ℚ) / 10 ^ n

/-! ### Constants from `esp8266/config.py` -/

def SERVO_MIN_ANGLE : ℚ := 0
def SERVO_MAX_ANGLE : ℚ := 180
def SERVO_CENTER : ℚ := 90
def SERVO_STEP_MIN : ℚ := 1
def SERVO_STEP_MAX : ℚ := 8
def SCAN_STEP : ℚ := 2
def SCAN_DELAY_MS : ℤ := 100
def DUTY_MIN : ℚ := 40
def DUTY_MAX : ℚ := 115

/-! ### `esp8266/main.py`: Servo and Scanner state

One flat record for the module-level `servo` and `scanner` singletons:
`angle` is `Servo._angle`, `duty` the last value passed to `pwm.duty`,
`active`/`direction`/`lastTick` are `Scanner._active`, `_direction`,
`_last_tick`. -/

structure SysState where
  angle : ℚ
  duty : ℤ
  active : Bool
  direction : ℤ
  lastTick : ℤ
  deriving DecidableEq, Repr

/-- `max(SERVO_MIN_ANGLE, min(SERVO_MAX_ANGLE, angle))` as in `angle_to_duty`/`set_angle`. -/
def clampA (a : ℚ) : ℚ := max SERVO_MIN_ANGLE (min SERVO_MAX_ANGLE a)

/-- `Servo.angle_to_duty` (the literal divisor 180 of the source). -/
def angle_to_duty (a : ℚ) : ℤ :=
  pyInt (DUTY_MIN + (DUTY_MAX - DUTY_MIN) * clampA a / 180)

/-- `Servo.set_angle`: clamp, store, drive PWM with the derived duty. -/
def set_angle (a : ℚ) (st : SysState) : SysState :=
  let a2 := clampA a
  { st with angle := a2, duty := angle_to_duty a2 }

/-- The step `int(SERVO_STEP_MIN + (SERVO_STEP_MAX - SERVO_STEP_MIN) * min(offset_abs / 0.4, 1.0))`
computed inside `Servo.move_proportional`. -/
def pyStep (offset_abs : ℚ) : ℤ :=
  pyInt (SERVO_STEP_MIN + (SERVO_STEP_MAX - SERVO_STEP_MIN) * min (offset_abs / (2/5)) 1)

/-- `Servo.move_proportional`. -/
def move_proportional (direction : ℤ) (offset_abs : ℚ) (st : SysState) : SysState :=
  set_angle (st.angle + (direction : ℚ) * (pyStep offset_abs : ℚ)) st

/-- `Servo.center`. -/
def center (st : SysState) : SysState := set_angle SERVO_CENTER st

/-- `Scanner.start` (`now` is the ambient `time.ticks_ms()`). -/
def scanStart (now : ℤ) (st : SysState) : SysState :=
  if st.active then st else { st with active := true, lastTick := now }

/-- `Scanner.stop`. -/
def scanStop (st : SysState) : SysState := { st with active := false }

/-- `Scanner.tick` (`now - lastTick` models `time.ticks_diff(now, self._last_tick)`). -/
def tick (now : ℤ) (st : SysState) : SysState :=
  if st.active then
    if now - st.lastTick < SCAN_DELAY_MS then st
    else
      let st1 := { st with lastTick := now }
      let a := st1.angle
      let d : ℤ :=
        if SERVO_MAX_ANGLE - SCAN_STEP ≤ a then -1
        else if a ≤ SERVO_MIN_ANGLE + SCAN_STEP then 1
        else st1.direction
      set_angle (a + (d : ℚ) * SCAN_STEP) { st1 with direction := d }
  else st

/-- Module initialisation: `Servo.__init__` sets `_angle = SERVO_CENTER` with
duty still unwritten (0), `Scanner.__init__` sets direction 1, last tick 0,
inactive; then the top level calls `servo.center()`. -/
def initState : SysState :=
  center { angle := SERVO_CENTER, duty := 0, active := false, direction := 1, lastTick := 0 }

/-! ### Call sequences over the servo/scanner state (for the angle invariant) -/

inductive Op where
  | setAngleOp (a : ℚ)
  | movePropOp (d : ℤ) (oa : ℚ)
  | centerOp
  | tickOp (now : ℤ)
  | startOp (now : ℤ)
  | stopOp
  deriving Repr

def applyOp (st : SysState) (op : Op) : SysState :=
  match op with
  | .setAngleOp a => set_angle a st
  | .movePropOp d oa => move_proportional d oa st
  | .centerOp => center st
  | .tickOp now => tick now st
  | .startOp now => scanStart now st
  | .stopOp => scanStop st

/-! ### `pc_vision/movement_detector.py` -/

def MOVE_LEFT : String := "MOVE_LEFT"
def MOVE_RIGHT : String := "MOVE_RIGHT"
def CENTERED : String := "CENTERED"
def NO_FACE : String := "NO_FACE"

/-- The fields `compute` reads from `frame_result` (with the `.get` defaults
already applied: missing `state` is `"searching"`, missing `lock_confidence`
is `0.0`, missing `face_box` is `none`). -/
structure Obs where
  state : String
  faceBox : Option (ℚ × ℚ × ℚ × ℚ)
  lockConfidence : ℚ

/-- `MovementDetector._prev_state` and `_last_publish_time`. -/
structure ClassifierState where
  prevState : Option String
  lastPublishTime : ℚ
  deriving DecidableEq, Repr

/-- The classification part of `MovementDetector.compute` (lines 61–94):
returns `(movement, confidence, offset)`. -/
def classify (dz hy : ℚ) (prev : Option String) (obs : Obs) (w : ℚ) : String × ℚ × ℚ :=
  if obs.state = "searching" ∨ obs.faceBox = none then (NO_FACE, 0, 0)
  else
    match obs.faceBox with
    | none => (NO_FACE, 0, 0)
    | some (x1, _, x2, _) =>
      let face_cx := (x1 + x2) / 2
      let frame_cx := w / 2
      let offset := (face_cx - frame_cx) / w
      let threshold := if prev = some CENTERED then dz + hy else dz
      let movement :=
        if |offset| ≤ threshold then CENTERED
        else if offset < 0 then MOVE_LEFT
        else MOVE_RIGHT
      (movement, obs.lockConfidence, offset)

/-- The dict returned by `compute`. -/
structure MovementEvent where
  status : String
  confidence : ℚ
  offset : ℚ
  timestamp : ℤ
  deriving Repr

/-- `MovementDetector.compute`: classify, then the anti-flooding gate
(lines 96–111). `dz`, `hy`, `ivl` are `dead_zone_ratio`, `hysteresis_ratio`,
`MIN_PUBLISH_INTERVAL`; `now` is `time.time()`. -/
def compute (dz hy ivl : ℚ) (st : ClassifierState) (obs : Obs) (w now : ℚ) :
    Option MovementEvent × ClassifierState :=
  let r := classify dz hy st.prevState obs w
  if ¬(some r.1 ≠ st.prevState) ∧ ¬(now - st.lastPublishTime ≥ ivl) then
    (none, st)
  else
    (some { status := r.1, confidence := pyRound 3 r.2.1, offset := pyRound 4 r.2.2,
            timestamp := pyInt now },
     { prevState := some r.1, lastPublishTime := now })

/-! ### `on_message` (esp8266/main.py, lines 149–187)

The payload is modelled after `json.loads`: `none` means the parse raised
`ValueError`, `some v` is the parsed JSON value. Exceptions escaping the
handler (only `ValueError`/`KeyError` are caught) are the first component. -/

inductive JValue where
  | null
  | boolV (b : Bool)
  | num (q : ℚ)
  | str (s : String)
  | arr (xs : List JValue)
  | obj (kvs : List (String × JValue))

inductive PyExn where
  | valueError
  | keyError
  | attributeError
  | typeError
  deriving DecidableEq, Repr

/-- Dict lookup with default (Python `dict.get(k, d)` on a JSON object). -/
def jLookupD (kvs : List (String × JValue)) (k : String) (d : JValue) : JValue :=
  (kvs.lookup k).getD d

/-- Python `v.get(k, d)`: only dicts have `.get`; every other JSON value
raises `AttributeError`. -/
def jGet (v : JValue) (k : String) (d : JValue) : Except PyExn JValue :=
  match v with
  | .obj kvs => .ok (jLookupD kvs k d)
  | _ => .error .attributeError

/-- Python `abs` on a JSON value: numbers (and bools, which are ints) work,
anything else raises `TypeError`. -/
def pyAbs (v : JValue) : Except PyExn ℚ :=
  match v with
  | .num q => .ok |q|
  | .boolV b => .ok (if b then 1 else 0)
  | _ => .error .typeError

/-- Python `v == s` for a string literal `s`: only equal strings compare equal. -/
def jeqStr (v : JValue) (s : String) : Bool :=
  match v with
  | .str t => t == s
  | _ => false

/-- `on_message`: returns the escaped exception (if any) and the state at the
moment control leaves the handler. `loads = none` models a `json.loads`
failure (`ValueError`, caught by the handler). -/
def onMessage (st : SysState) (loads : Option JValue) (now : ℤ) : Option PyExn × SysState :=
  match loads with
  | none => (none, st)
  | some payload =>
    match jGet payload "status" (.str "") with
    | .error e => (some e, st)
    | .ok statusV =>
      match jGet payload "offset" (.num 0) with
      | .error e => (some e, st)
      | .ok offsetV =>
        if jeqStr statusV "MOVE_LEFT" then
          let st1 := scanStop st
          match pyAbs offsetV with
          | .error e => (some e, st1)
          | .ok oa => (none, move_proportional (-1) oa st1)
        else if jeqStr statusV "MOVE_RIGHT" then
          let st1 := scanStop st
          match pyAbs offsetV with
          | .error e => (some e, st1)
          | .ok oa => (none, move_proportional 1 oa st1)
        else if jeqStr statusV "CENTERED" then
          (none, scanStop st)
        else if jeqStr statusV "NO_FACE" then
          (none, scanStart now st)
        else
          (none, st)

/-! ### Dispatch-loop events (for the scan/command exclusion property) -/

inductive Ev where
  | msg (loads : Option JValue) (now : ℤ)
  | tickEv (now : ℤ)

/-- One iteration step of the `run` loop on an event. An exception escaping
`on_message` is swallowed by the loop's blanket handler; the servo/scanner
globals keep the state reached before the raise. -/
def stepEv (st : SysState) (e : Ev) : SysState :=
  match e with
  | .msg loads now => (onMessage st loads now).2
  | .tickEv now => tick now st

/-- An event that can start the scanner: a parsed JSON object whose
`status` is `"NO_FACE"`. -/
def activates : Ev → Bool
  | .msg (some (.obj kvs)) _ => jeqStr (jLookupD kvs "status" (.str "")) "NO_FACE"
  | _ => false

/-- A directional or centered command message. -/
def isCommand : Ev → Bool
  | .msg (some (.obj kvs)) _ =>
    let s := jLookupD kvs "status" (.str "")
    jeqStr s "MOVE_LEFT" || jeqStr s "MOVE_RIGHT" || jeqStr s "CENTERED"
  | _ => false

/-! ### Helper lemmas -/

lemma clampA_nonneg (a : ℚ) : SERVO_MIN_ANGLE ≤ clampA a := le_max_left _ _

lemma clampA_le (a : ℚ) : clampA a ≤ SERVO_MAX_ANGLE := by
  unfold clampA SERVO_MIN_ANGLE SERVO_MAX_ANGLE
  exact max_le (by norm_num) (min_le_left _ _)

lemma clampA_idem (a : ℚ) : clampA (clampA a) = clampA a := by
  unfold clampA SERVO_MIN_ANGLE SERVO_MAX_ANGLE
  rcases le_total a 180 with h | h
  · rw [min_eq_right h]
    rcases le_total 0 a with h0 | h0
    · rw [max_eq_right h0, min_eq_right h, max_eq_right h0]
    · rw [max_eq_left h0, min_eq_right (by norm_num), max_eq_right le_rfl]
  · rw [min_eq_left h, max_eq_right (by norm_num), min_eq_left (by norm_num),
      max_eq_right (by norm_num)]

lemma set_angle_angle (a : ℚ) (st : SysState) : (set_angle a st).angle = clampA a := rfl

lemma set_angle_active (a : ℚ) (st : SysState) : (set_angle a st).active = st.active := rfl

lemma applyOp_bounds (st : SysState) (op : Op)
    (h1 : SERVO_MIN_ANGLE ≤ st.angle) (h2 : st.angle ≤ SERVO_MAX_ANGLE) :
    SERVO_MIN_ANGLE ≤ (applyOp st op).angle ∧ (applyOp st op).angle ≤ SERVO_MAX_ANGLE := by
  cases op with
  | setAngleOp a => exact ⟨clampA_nonneg _, clampA_le _⟩
  | movePropOp d oa => exact ⟨clampA_nonneg _, clampA_le _⟩
  | centerOp => exact ⟨clampA_nonneg _, clampA_le _⟩
  | tickOp now =>
    show SERVO_MIN_ANGLE ≤ (tick now st).angle ∧ (tick now st).angle ≤ SERVO_MAX_ANGLE
    unfold tick
    split
    · split
      · exact ⟨h1, h2⟩
      · exact ⟨clampA_nonneg _, clampA_le _⟩
    · exact ⟨h1, h2⟩
  | startOp now =>
    show SERVO_MIN_ANGLE ≤ (scanStart now st).angle ∧ (scanStart now st).angle ≤ SERVO_MAX_ANGLE
    unfold scanStart
    split <;> exact ⟨h1, h2⟩
  | stopOp => exact ⟨h1, h2⟩

lemma foldl_applyOp_bounds (ops : List Op) :
    ∀ st : SysState, SERVO_MIN_ANGLE ≤ st.angle → st.angle ≤ SERVO_MAX_ANGLE →
      SERVO_MIN_ANGLE ≤ (ops.foldl applyOp st).angle ∧
        (ops.foldl applyOp st).angle ≤ SERVO_MAX_ANGLE := by
  induction ops with
  | nil => exact fun st h1 h2 => ⟨h1, h2⟩
  | cons op rest ih =>
    intro st h1 h2
    have h := applyOp_bounds st op h1 h2
    exact ih (applyOp st op) h.1 h.2

/-! ### Claims about the servo/scanner -/

/-- Claim C3: the stored servo angle stays within `[angle_min, angle_max]`
after every finite sequence of `set_angle`, `move_proportional`, `center`,
and scanner calls, starting from the initial centered angle, for arbitrary
(including out-of-range) angle and offset arguments. -/
theorem claim3_angle_invariant (ops : List Op) :
    SERVO_MIN_ANGLE ≤ (ops.foldl applyOp initState).angle ∧
      (ops.foldl applyOp initState).angle ≤ SERVO_MAX_ANGLE := by
  apply foldl_applyOp_bounds
  · show SERVO_MIN_ANGLE ≤ clampA SERVO_CENTER
    exact clampA_nonneg _
  · exact clampA_le _

/-- Claim C6: the proportional step of `move_proportional` is monotonically
non-decreasing in `offset_abs` on `[0, 0.5]`, and equals `step_max` for every
`offset_abs ≥ 0.4`. -/
theorem claim6_step_monotone (a b : ℚ) (ha : 0 ≤ a) (hab : a ≤ b) (hb : b ≤ 1/2) :
    pyStep a ≤ pyStep b ∧ ∀ c : ℚ, 2/5 ≤ c → (pyStep c : ℚ) = SERVO_STEP_MAX := by
  constructor
  · unfold pyStep pyInt SERVO_STEP_MIN SERVO_STEP_MAX
    have hma : (0 : ℚ) ≤ min (a / (2/5)) 1 :=
      le_min (div_nonneg ha (by norm_num)) (by norm_num)
    have hmono : min (a / (2/5)) 1 ≤ min (b / (2/5)) 1 :=
      min_le_min (by apply div_le_div_of_nonneg_right hab; norm_num) le_rfl
    have hxa : (0 : ℚ) ≤ 1 + (8 - 1) * min (a / (2/5)) 1 := by positivity
    have hxb : (0 : ℚ) ≤ 1 + (8 - 1) * min (b / (2/5)) 1 := le_trans hxa (by nlinarith)
    rw [if_pos hxa, if_pos hxb]
    exact Int.floor_le_floor (by nlinarith)
  · intro c hc
    unfold pyStep pyInt SERVO_STEP_MIN SERVO_STEP_MAX
    have h1 : (1 : ℚ) ≤ c / (2/5) := by rw [le_div_iff₀ (by norm_num)]; linarith
    rw [min_eq_right h1]
    norm_num

/-- Claim C6 witness at concrete offsets. -/
theorem claim6_witness :
    pyStep (1/10) ≤ pyStep (3/10) ∧ (pyStep (1/2) : ℚ) = SERVO_STEP_MAX := by
  have h := claim6_step_monotone (1/10) (3/10) (by norm_num) (by norm_num) (by norm_num)
  exact ⟨h.1, h.2 (1/2) (by norm_num)⟩

/-- Claim C7: on an active scanner tick whose interval has elapsed, the
direction becomes `-1` exactly when `angle ≥ angle_max - scan_step`, `+1`
exactly when `angle ≤ angle_min + scan_step`, and is unchanged otherwise;
the reversal is evaluated before the move (the step uses the new direction),
and the resulting angle stays within the mechanical bounds. -/
theorem claim7_tick_reversal (st : SysState) (now : ℤ)
    (ha : st.active = true) (he : ¬ now - st.lastTick < SCAN_DELAY_MS) :
    (tick now st).direction =
      (if SERVO_MAX_ANGLE - SCAN_STEP ≤ st.angle then -1
       else if st.angle ≤ SERVO_MIN_ANGLE + SCAN_STEP then 1
       else st.direction) ∧
    (tick now st).angle =
      clampA (st.angle +
        (Int.cast (if SERVO_MAX_ANGLE - SCAN_STEP ≤ st.angle then (-1 : ℤ)
          else if st.angle ≤ SERVO_MIN_ANGLE + SCAN_STEP then 1
          else st.direction) : ℚ) * SCAN_STEP) ∧
    SERVO_MIN_ANGLE ≤ (tick now st).angle ∧ (tick now st).angle ≤ SERVO_MAX_ANGLE := by
  unfold tick
  rw [if_pos ha, if_neg he]
  exact ⟨rfl, rfl, clampA_nonneg _, clampA_le _⟩

/-- Claim C7 witness at a concrete near-limit state. -/
theorem claim7_witness :
    (tick 200 { angle := 179, duty := 0, active := true, direction := 1, lastTick := 0 }).direction =
      (if SERVO_MAX_ANGLE - SCAN_STEP ≤ (179 : ℚ) then -1
       else if (179 : ℚ) ≤ SERVO_MIN_ANGLE + SCAN_STEP then 1
       else 1) ∧
    SERVO_MIN_ANGLE ≤
      (tick 200 { angle := 179, duty := 0, active := true, direction := 1, lastTick := 0 }).angle := by
  have h := claim7_tick_reversal
    { angle := 179, duty := 0, active := true, direction := 1, lastTick := 0 } 200 rfl (by decide)
  exact ⟨h.1, h.2.2.1⟩

/-- Claim C8: `set_angle` clamps its argument to `[angle_min, angle_max]`,
stores the clamped value, and derives the duty as
`duty_min + (duty_max - duty_min) * angle / (angle_max - angle_min)` truncated
to an integer (the configured span `angle_max - angle_min` is the 180 the
source divides by). -/
theorem claim8_set_angle_duty (a : ℚ) (st : SysState) :
    set_angle a st =
      { st with
          angle := clampA a,
          duty := pyInt (DUTY_MIN + (DUTY_MAX - DUTY_MIN) * clampA a /
            (SERVO_MAX_ANGLE - SERVO_MIN_ANGLE)) } := by
  have hspan : SERVO_MAX_ANGLE - SERVO_MIN_ANGLE = (180 : ℚ) := by
    norm_num [SERVO_MAX_ANGLE, SERVO_MIN_ANGLE]
  simp only [set_angle, angle_to_duty, clampA_idem, hspan]

/-! ### Claims about the movement classifier -/

lemma pyRound_zero (n : ℕ) : pyRound n 0 = 0 := by
  unfold pyRound roundHE
  norm_num

/-- Claim C1: `compute` updates its state only when it emits.  If the computed
movement equals `last_emitted_status` and less than `min_publish_interval`
has elapsed since `last_emit_time`, it returns nothing and leaves the state
unchanged; in every other case it returns the event and sets
`last_emitted_status` to the computed movement and `last_emit_time` to `now`. -/
theorem claim1_flood_gate (dz hy ivl : ℚ) (st : ClassifierState) (obs : Obs) (w now : ℚ) :
    (some (classify dz hy st.prevState obs w).1 = st.prevState ∧
        now - st.lastPublishTime < ivl →
      compute dz hy ivl st obs w now = (none, st)) ∧
    (some (classify dz hy st.prevState obs w).1 ≠ st.prevState ∨
        ivl ≤ now - st.lastPublishTime →
      compute dz hy ivl st obs w now =
        (some { status := (classify dz hy st.prevState obs w).1,
                confidence := pyRound 3 (classify dz hy st.prevState obs w).2.1,
                offset := pyRound 4 (classify dz hy st.prevState obs w).2.2,
                timestamp := pyInt now },
         { prevState := some (classify dz hy st.prevState obs w).1,
           lastPublishTime := now })) := by
  constructor
  · intro h
    simp only [compute]
    rw [if_pos ⟨fun hn => hn h.1, not_le.mpr h.2⟩]
  · intro h
    simp only [compute]
    rw [if_neg]
    intro hc
    rcases h with h | h
    · exact h (not_not.mp hc.1)
    · exact hc.2 h

/-- Claim C1 witness: a suppressed duplicate within the interval. -/
theorem claim1_witness :
    compute (1/10) (1/20) 2 ⟨some NO_FACE, 10⟩ ⟨"searching", none, 1/2⟩ 640 11 =
      (none, ⟨some NO_FACE, 10⟩) := by
  exact (claim1_flood_gate (1/10) (1/20) 2 ⟨some NO_FACE, 10⟩ ⟨"searching", none, 1/2⟩
    640 11).1 ⟨by decide, by norm_num⟩

/-- Claim C2: for a tracked observation with a bounding box, the threshold is
`dead_zone + hysteresis` when the last emitted status is CENTERED and
`dead_zone` otherwise, and the computed movement is CENTERED iff
`|offset| ≤ threshold`, MOVE_LEFT iff `offset < -threshold`, MOVE_RIGHT iff
`offset > threshold`. -/
theorem claim2_hysteresis_threshold (dz hy : ℚ) (prev : Option String) (s : String)
    (x1 y1 x2 y2 lc w : ℚ) (hs : s ≠ "searching") (hdz : 0 ≤ dz) (hhy : 0 ≤ hy) :
    ((classify dz hy prev ⟨s, some (x1, y1, x2, y2), lc⟩ w).1 = CENTERED ↔
      |((x1 + x2) / 2 - w / 2) / w| ≤ (if prev = some CENTERED then dz + hy else dz)) ∧
    ((classify dz hy prev ⟨s, some (x1, y1, x2, y2), lc⟩ w).1 = MOVE_LEFT ↔
      ((x1 + x2) / 2 - w / 2) / w < -(if prev = some CENTERED then dz + hy else dz)) ∧
    ((classify dz hy prev ⟨s, some (x1, y1, x2, y2), lc⟩ w).1 = MOVE_RIGHT ↔
      (if prev = some CENTERED then dz + hy else dz) < ((x1 + x2) / 2 - w / 2) / w) := by
  set off := ((x1 + x2) / 2 - w / 2) / w with hoff
  set thr := (if prev = some CENTERED then dz + hy else dz) with hthr
  have hthr0 : 0 ≤ thr := by
    rw [hthr]; split_ifs
    · linarith
    · exact hdz
  have hcl : (classify dz hy prev ⟨s, some (x1, y1, x2, y2), lc⟩ w).1 =
      (if |off| ≤ thr then CENTERED else if off < 0 then MOVE_LEFT else MOVE_RIGHT) := by
    simp only [classify]
    rw [if_neg (by simp [hs])]
  rw [hcl]
  by_cases h1 : |off| ≤ thr
  · rw [if_pos h1]
    have hle := abs_le.mp h1
    refine ⟨⟨fun _ => h1, fun _ => rfl⟩, ⟨fun hC => absurd hC (by decide), fun hlt => ?_⟩,
      ⟨fun hC => absurd hC (by decide), fun hgt => ?_⟩⟩
    · exfalso; linarith [hle.1]
    · exfalso; linarith [hle.2]
  · rw [if_neg h1]
    have habs : thr < |off| := not_le.mp h1
    by_cases h2 : off < 0
    · rw [if_pos h2]
      have hlt : off < -thr := by
        rw [abs_of_neg h2] at habs; linarith
      refine ⟨⟨fun hC => absurd hC (by decide), fun hle => absurd hle h1⟩,
        ⟨fun _ => hlt, fun _ => rfl⟩,
        ⟨fun hC => absurd hC (by decide), fun hgt => ?_⟩⟩
      exfalso; linarith
    · rw [if_neg h2]
      have h0 : 0 ≤ off := not_lt.mp h2
      have hgt : thr < off := by rwa [abs_of_nonneg h0] at habs
      refine ⟨⟨fun hC => absurd hC (by decide), fun hle => absurd hle h1⟩,
        ⟨fun hC => absurd hC (by decide), fun hlt => ?_⟩,
        ⟨fun _ => hgt, fun _ => rfl⟩⟩
      exfalso; linarith

/-- Claim C2 witness: the spec scenario (frame 640, box center 224,
dead zone 0.1, hysteresis 0.05, no previous emission) yields MOVE_LEFT. -/
theorem claim2_witness :
    (classify (1/10) (1/20) none ⟨"tracking", some (192, 0, 256, 0), 7/10⟩ 640).1 =
      MOVE_LEFT := by
  refine ((claim2_hysteresis_threshold (1/10) (1/20) none "tracking" 192 0 256 0 (7/10) 640
    (by decide) (by norm_num) (by norm_num)).2.1).mpr ?_
  rw [if_neg (by simp)]
  norm_num

/-- Claim C9: for an observation in the `searching` state or without a
bounding box, the movement is NO_FACE with confidence forced to 0 and
offset 0, regardless of the reported confidence. -/
theorem claim9_searching_no_face (dz hy ivl : ℚ) (st : ClassifierState) (obs : Obs)
    (w now : ℚ) (h : obs.state = "searching" ∨ obs.faceBox = none) :
    classify dz hy st.prevState obs w = (NO_FACE, 0, 0) ∧
    ∀ ev st2, compute dz hy ivl st obs w now = (some ev, st2) →
      ev.status = NO_FACE ∧ ev.confidence = 0 ∧ ev.offset = 0 := by
  have hcl : classify dz hy st.prevState obs w = (NO_FACE, 0, 0) := by
    unfold classify; rw [if_pos h]
  refine ⟨hcl, ?_⟩
  intro ev st2 hev
  simp only [compute, hcl] at hev
  split at hev
  · exact absurd hev (by simp)
  · rw [Prod.mk.injEq] at hev
    obtain ⟨h1, -⟩ := hev
    injection h1 with h1
    subst h1
    exact ⟨rfl, pyRound_zero 3, pyRound_zero 4⟩

/-- Claim C9 witness: a searching observation with nonzero reported confidence. -/
theorem claim9_witness :
    classify (1/10) (1/20) (some CENTERED) ⟨"searching", none, 9/10⟩ 640 =
      (NO_FACE, 0, 0) := by
  exact (claim9_searching_no_face (1/10) (1/20) 2 ⟨some CENTERED, 0⟩
    ⟨"searching", none, 9/10⟩ 640 5 (Or.inl rfl)).1

/-! ### Claims about the message handler and dispatch loop -/

lemma move_proportional_active (d : ℤ) (oa : ℚ) (st : SysState) :
    (move_proportional d oa st).active = st.active := rfl

lemma tick_preserves_active (now : ℤ) (st : SysState) :
    (tick now st).active = st.active := by
  unfold tick
  split_ifs <;> rfl

lemma tick_inactive (now : ℤ) (st : SysState) (h : st.active = false) :
    tick now st = st := by
  simp [tick, h]

/-- `on_message` on a parsed JSON object, with the two `.get` calls resolved. -/
lemma onMessage_obj (st : SysState) (kvs : List (String × JValue)) (now : ℤ) :
    onMessage st (some (.obj kvs)) now =
      (let statusV := jLookupD kvs "status" (.str "")
       let offsetV := jLookupD kvs "offset" (.num 0)
       if jeqStr statusV "MOVE_LEFT" then
         match pyAbs offsetV with
         | .error e => (some e, scanStop st)
         | .ok oa => (none, move_proportional (-1) oa (scanStop st))
       else if jeqStr statusV "MOVE_RIGHT" then
         match pyAbs offsetV with
         | .error e => (some e, scanStop st)
         | .ok oa => (none, move_proportional 1 oa (scanStop st))
       else if jeqStr statusV "CENTERED" then (none, scanStop st)
       else if jeqStr statusV "NO_FACE" then (none, scanStart now st)
       else (none, st)) := rfl

lemma onMessage_keeps_inactive (st : SysState) (loads : Option JValue) (now : ℤ)
    (h : st.active = false)
    (hna : ∀ kvs, loads = some (.obj kvs) →
      jeqStr (jLookupD kvs "status" (.str "")) "NO_FACE" = false) :
    (onMessage st loads now).2.active = false := by
  cases loads with
  | none => exact h
  | some payload =>
    cases payload with
    | obj kvs =>
      rw [onMessage_obj]
      simp only
      split_ifs with h1 h2 h3 h4
      · split <;> rfl
      · split <;> rfl
      · rfl
      · rw [hna kvs rfl] at h4
        cases h4
      · exact h
    | null => exact h
    | boolV b => exact h
    | num q => exact h
    | str s => exact h
    | arr xs => exact h

lemma stepEv_keeps_inactive (st : SysState) (e : Ev) (h : st.active = false)
    (hna : activates e = false) : (stepEv st e).active = false := by
  cases e with
  | tickEv now =>
    show (tick now st).active = false
    rw [tick_preserves_active]
    exact h
  | msg loads now =>
    apply onMessage_keeps_inactive st loads now h
    intro kvs hk
    subst hk
    exact hna

lemma foldl_stepEv_inactive (es : List Ev) :
    ∀ st : SysState, st.active = false → (∀ x ∈ es, activates x = false) →
      (es.foldl stepEv st).active = false := by
  induction es with
  | nil => exact fun st h _ => h
  | cons e rest ih =>
    intro st h hall
    exact ih (stepEv st e) (stepEv_keeps_inactive st e h (hall e (by simp)))
      fun x hx => hall x (by simp [hx])

/-- Claim C5 counterexample: the payload `42` is valid JSON but not an object;
`payload.get` raises `AttributeError`, which the handler's
`except (ValueError, KeyError)` does not catch, so an error propagates. -/
theorem claim5_counterexample :
    (onMessage initState (some (.num 42)) 0).1 = some PyExn.attributeError := rfl

/-- Claim C5 (amended): a payload that fails JSON parsing (`ValueError`) is
logged and discarded with servo and scanner state unchanged; but a valid-JSON
payload that is not a JSON object escapes the handler with an uncaught
`AttributeError` (state unchanged only because the raise precedes any
mutation). -/
theorem claim5_amended (st : SysState) (now : ℤ) (v : JValue)
    (hv : ∀ kvs, v ≠ JValue.obj kvs) :
    onMessage st none now = (none, st) ∧
    onMessage st (some v) now = (some PyExn.attributeError, st) := by
  refine ⟨rfl, ?_⟩
  cases v with
  | obj kvs => exact absurd rfl (hv kvs)
  | null => rfl
  | boolV b => rfl
  | num q => rfl
  | str s => rfl
  | arr xs => rfl

/-- Claim C5 witness: invalid JSON is discarded; the non-object `42` raises. -/
theorem claim5_witness :
    onMessage initState none 0 = (none, initState) ∧
    onMessage initState (some (JValue.num 42)) 0 =
      (some PyExn.attributeError, initState) :=
  claim5_amended initState 0 (JValue.num 42) fun kvs h => JValue.noConfusion h

/-- Claim C10: an object payload with a missing `status` defaults to the
empty string and lands in the unknown-status branch (no state change); a
MOVE_LEFT/MOVE_RIGHT payload with a missing `offset` defaults it to `0.0`,
so the servo still moves by the minimum step `step_min`. -/
theorem claim10_missing_fields (st : SysState) (now : ℤ)
    (kvs kvsL kvsR : List (String × JValue))
    (h1 : kvs.lookup "status" = none)
    (h2 : kvsL.lookup "status" = some (.str "MOVE_LEFT"))
    (h3 : kvsL.lookup "offset" = none)
    (h4 : kvsR.lookup "status" = some (.str "MOVE_RIGHT"))
    (h5 : kvsR.lookup "offset" = none) :
    onMessage st (some (.obj kvs)) now = (none, st) ∧
    onMessage st (some (.obj kvsL)) now = (none, move_proportional (-1) 0 (scanStop st)) ∧
    onMessage st (some (.obj kvsR)) now = (none, move_proportional 1 0 (scanStop st)) ∧
    ((pyStep 0 : ℤ) : ℚ) = SERVO_STEP_MIN ∧
    (move_proportional (-1) 0 (scanStop st)).angle = clampA (st.angle - 1) ∧
    (move_proportional 1 0 (scanStop st)).angle = clampA (st.angle + 1) := by
  have hstep : pyStep 0 = 1 := by
    unfold pyStep SERVO_STEP_MIN SERVO_STEP_MAX
    norm_num [min_def, pyInt]
  have hsE : jLookupD kvs "status" (.str "") = .str "" := by
    unfold jLookupD; rw [h1]; rfl
  have hsL : jLookupD kvsL "status" (.str "") = .str "MOVE_LEFT" := by
    unfold jLookupD; rw [h2]; rfl
  have hoL : jLookupD kvsL "offset" (.num 0) = .num 0 := by
    unfold jLookupD; rw [h3]; rfl
  have hsR : jLookupD kvsR "status" (.str "") = .str "MOVE_RIGHT" := by
    unfold jLookupD; rw [h4]; rfl
  have hoR : jLookupD kvsR "offset" (.num 0) = .num 0 := by
    unfold jLookupD; rw [h5]; rfl
  refine ⟨?_, ?_, ?_, ?_, ?_, ?_⟩
  · rw [onMessage_obj]
    simp only [hsE]
    rfl
  · rw [onMessage_obj]
    simp only [hsL, hoL]
    show (match pyAbs (.num 0) with
      | .error e => (some e, scanStop st)
      | .ok oa => (none, move_proportional (-1) oa (scanStop st))) =
        (none, move_proportional (-1) 0 (scanStop st))
    simp [pyAbs]
  · rw [onMessage_obj]
    simp only [hsR, hoR]
    show (match pyAbs (.num 0) with
      | .error e => (some e, scanStop st)
      | .ok oa => (none, move_proportional 1 oa (scanStop st))) =
        (none, move_proportional 1 0 (scanStop st))
    simp [pyAbs]
  · rw [hstep]; norm_num [SERVO_STEP_MIN]
  · show clampA ((scanStop st).angle + ((-1 : ℤ) : ℚ) * ((pyStep 0 : ℤ) : ℚ)) =
      clampA (st.angle - 1)
    rw [hstep]
    show clampA (st.angle + ((-1 : ℤ) : ℚ) * ((1 : ℤ) : ℚ)) = clampA (st.angle - 1)
    congr 1
    push_cast
    ring
  · show clampA ((scanStop st).angle + ((1 : ℤ) : ℚ) * ((pyStep 0 : ℤ) : ℚ)) =
      clampA (st.angle + 1)
    rw [hstep]
    show clampA (st.angle + ((1 : ℤ) : ℚ) * ((1 : ℤ) : ℚ)) = clampA (st.angle + 1)
    congr 1
    push_cast
    ring

/-- Claim C10 witness at concrete payloads. -/
theorem claim10_witness :
    onMessage initState (some (.obj [("x", JValue.num 1)])) 0 = (none, initState) ∧
    onMessage initState (some (.obj [("status", JValue.str "MOVE_LEFT")])) 0 =
      (none, move_proportional (-1) 0 (scanStop initState)) := by
  have h := claim10_missing_fields initState 0 [("x", JValue.num 1)]
    [("status", JValue.str "MOVE_LEFT")] [("status", JValue.str "MOVE_RIGHT")]
    rfl rfl rfl rfl rfl
  exact ⟨h.1, h.2.1⟩

/-- Claim C4: a MOVE_LEFT / MOVE_RIGHT / CENTERED message deactivates the
scanner before any servo motion for that message is applied (the motion is
applied to the already-stopped state), and every scanner tick after such a
message — with no intervening NO_FACE — is a no-op. -/
theorem claim4_scan_command_exclusion (st : SysState) (e : Ev) (es : List Ev) (now : ℤ)
    (hc : isCommand e = true) (hes : ∀ x ∈ es, activates x = false) :
    (stepEv st e).active = false ∧
    (es.foldl stepEv (stepEv st e)).active = false ∧
    tick now (es.foldl stepEv (stepEv st e)) = es.foldl stepEv (stepEv st e) ∧
    (∀ kvs t q, e = .msg (some (.obj kvs)) t →
      jLookupD kvs "status" (.str "") = .str "MOVE_LEFT" →
      jLookupD kvs "offset" (.num 0) = .num q →
      stepEv st e = move_proportional (-1) |q| (scanStop st)) ∧
    (∀ kvs t q, e = .msg (some (.obj kvs)) t →
      jLookupD kvs "status" (.str "") = .str "MOVE_RIGHT" →
      jLookupD kvs "offset" (.num 0) = .num q →
      stepEv st e = move_proportional 1 |q| (scanStop st)) ∧
    (∀ kvs t, e = .msg (some (.obj kvs)) t →
      jLookupD kvs "status" (.str "") = .str "CENTERED" →
      stepEv st e = scanStop st) := by
  have hstop : (stepEv st e).active = false := by
    cases e with
    | tickEv t => cases hc
    | msg loads t =>
      cases loads with
      | none => cases hc
      | some payload =>
        cases payload with
        | obj kvs =>
          show (onMessage st (some (.obj kvs)) t).2.active = false
          rw [onMessage_obj]
          simp only
          have hc2 : (jeqStr (jLookupD kvs "status" (.str "")) "MOVE_LEFT" ||
              jeqStr (jLookupD kvs "status" (.str "")) "MOVE_RIGHT" ||
              jeqStr (jLookupD kvs "status" (.str "")) "CENTERED") = true := hc
          split_ifs with h1 h2 h3 h4
          · split <;> rfl
          · split <;> rfl
          · rfl
          · simp [h1, h2, h3] at hc2
          · simp [h1, h2, h3] at hc2
        | null => cases hc
        | boolV b => cases hc
        | num q => cases hc
        | str s => cases hc
        | arr xs => cases hc
  have hfold : (es.foldl stepEv (stepEv st e)).active = false :=
    foldl_stepEv_inactive es (stepEv st e) hstop hes
  refine ⟨hstop, hfold, tick_inactive now _ hfold, ?_, ?_, ?_⟩
  · intro kvs t q hE hst hoff
    subst hE
    show (onMessage st (some (.obj kvs)) t).2 = _
    rw [onMessage_obj]
    simp only [hst, hoff]
    simp [jeqStr, pyAbs]
  · intro kvs t q hE hst hoff
    subst hE
    show (onMessage st (some (.obj kvs)) t).2 = _
    rw [onMessage_obj]
    simp only [hst, hoff]
    simp [jeqStr, pyAbs]
  · intro kvs t hE hst
    subst hE
    show (onMessage st (some (.obj kvs)) t).2 = _
    rw [onMessage_obj]
    simp only [hst]
    simp [jeqStr]

/-- Claim C4 witness: a MOVE_RIGHT message received while scanning, followed
by a tick, leaves the scanner inactive and the tick a no-op. -/
theorem claim4_witness :
    (stepEv { angle := 90, duty := 77, active := true, direction := 1, lastTick := 0 }
      (Ev.msg (some (.obj [("status", JValue.str "MOVE_RIGHT"),
        ("offset", JValue.num (1/4))])) 5)).active = false ∧
    tick 500 ([Ev.tickEv 7].foldl stepEv
      (stepEv { angle := 90, duty := 77, active := true, direction := 1, lastTick := 0 }
        (Ev.msg (some (.obj [("status", JValue.str "MOVE_RIGHT"),
          ("offset", JValue.num (1/4))])) 5))) =
      [Ev.tickEv 7].foldl stepEv
        (stepEv { angle := 90, duty := 77, active := true, direction := 1, lastTick := 0 }
          (Ev.msg (some (.obj [("status", JValue.str "MOVE_RIGHT"),
            ("offset", JValue.num (1/4))])) 5)) := by
  have h := claim4_scan_command_exclusion
    { angle := 90, duty := 77, active := true, direction := 1, lastTick := 0 }
    (Ev.msg (some (.obj [("status", JValue.str "MOVE_RIGHT"),
      ("offset", JValue.num (1/4))])) 5)
    [Ev.tickEv 7] 500 (by decide)
    (by intro x hx; rw [List.mem_singleton] at hx; subst hx; rfl)
  exact ⟨h.1, h.2.2.1⟩

end FaceTrack
